import Mathlib

/-!
Verification of the clip-generation pipeline of `src/main.py`.

The Python code is shallowly embedded: Python floats are modelled as exact
rationals (`ℚ`), `round(x, 3)` is modelled by exact decimal rounding with
round-half-to-even tie-breaking (Python's rounding mode), subprocess
invocations are modelled by an oracle assigning a `ProcResult` (exit code,
stdout, stderr) to each invocation, and the filesystem visible to
`_ensure_public_link` is modelled by an explicit state.
-/

/-- The constant `one_minute = 60.0` from `create_clips`. -/
def one_minute : ℚ := 60

/-- Python's `round` to an integer, modelled exactly on rationals:
round to nearest, ties to even (Python's banker's rounding). -/
def pyRoundInt (y : ℚ) : ℤ :=
  if y - ⌊y⌋ < 1/2 then ⌊y⌋
  else if 1/2 < y - ⌊y⌋ then ⌊y⌋ + 1
  else if ⌊y⌋ % 2 = 0 then ⌊y⌋ else ⌊y⌋ + 1

/-- Python's `round(x, 3)` modelled on rationals. -/
def round3 (x : ℚ) : ℚ := (pyRoundInt (x * 1000) : ℚ) / 1000

/-- Sequential start-time planning (the `else` branch of the strategy test in
`create_clips`, lines 181-185): `s = min(start_time + i * one_minute, max_start)`,
appended as `round(s, 3)`, where `start_time = payload.start if payload.start
is not None else 0.0` and `max_start = max(0.0, total - one_minute)`. -/
def planSequential (total : ℚ) (count : ℕ) (start? : Option ℚ) : List ℚ :=
  let max_start := max 0 (total - one_minute)
  let start_time := start?.getD 0
  (List.range count).map fun i : ℕ => round3 (min (start_time + (i : ℚ) * one_minute) max_start)

/-- `random.uniform(a, b)`, modelled as `a + (b - a) * f` where `f` is the
fraction in `[0, 1]` produced by the injected random source. -/
def pyUniform (a b f : ℚ) : ℚ := a + (b - a) * f

/-- Random start-time planning (lines 178-180 of `create_clips`): each draw is
`round(random.uniform(0, max_start), 3)`; `fracs` is the injected stream of
random fractions, one per draw. -/
def planRandom (total : ℚ) (fracs : List ℚ) : List ℚ :=
  let max_start := max 0 (total - one_minute)
  fracs.map fun f => round3 (pyUniform 0 max_start f)

/-- The strategy dispatch of `create_clips` (lines 177-185): the `random`
strategy consumes `count` draws from the random source; any other strategy
string falls into the sequential branch. -/
def planStarts (strategy : String) (total : ℚ) (count : ℕ) (start? : Option ℚ)
    (fracs : List ℚ) : List ℚ :=
  if strategy = "random" then planRandom total (fracs.take count)
  else planSequential total count start?

/-- The `-t` argument of the extraction command (line 199):
`min(one_minute, max(0.001, total - s))`. -/
def reqDuration (total s : ℚ) : ℚ := min one_minute (max (1/1000) (total - s))

/-- Characters removed by Python `str.strip()` (ASCII whitespace). -/
def isSpaceChar (c : Char) : Bool :=
  c = ' ' || c = '\n' || c = '\t' || c = '\r' || c = '\x0c' || c = '\x0b'

/-- Python `str.strip()`: drop whitespace from both ends. -/
def pyStrip (s : String) : String :=
  ⟨((s.toList.dropWhile isSpaceChar).reverse.dropWhile isSpaceChar).reverse⟩

/-- `os.path.basename`: the part after the last slash. -/
def basename (p : String) : String :=
  ⟨(p.toList.reverse.takeWhile fun c => c != '/').reverse⟩

/-- Numeric value of a digit run, as Python `float` reads an integer part. -/
def readNat (cs : List Char) : ℕ := cs.foldl (fun a c => a * 10 + (c.toNat - 48)) 0

/-- The literal part of the pattern `Duration: (\d+):(\d+):(\d+\.?\d*)`. -/
def durationPat : List Char := "Duration: ".toList

/-- One attempt of the regex `Duration: (\d+):(\d+):(\d+\.?\d*)` anchored at the
head of `cs`; yields the groups as (hours, minutes, integer seconds, value of
the fractional digits, number of fractional digits). -/
def matchDurationAt (cs : List Char) : Option (ℕ × ℕ × ℕ × ℕ × ℕ) :=
  if durationPat.isPrefixOf cs then
    let r0 := cs.drop durationPat.length
    let hs := r0.takeWhile Char.isDigit
    if hs.isEmpty then none else
    match r0.drop hs.length with
    | ':' :: r2 =>
      let ms := r2.takeWhile Char.isDigit
      if ms.isEmpty then none else
      match r2.drop ms.length with
      | ':' :: r4 =>
        let ss := r4.takeWhile Char.isDigit
        if ss.isEmpty then none else
        match r4.drop ss.length with
        | '.' :: r6 =>
          let fs := r6.takeWhile Char.isDigit
          some (readNat hs, readNat ms, readNat ss, readNat fs, fs.length)
        | _ => some (readNat hs, readNat ms, readNat ss, 0, 0)
      | _ => none
    | _ => none
  else none

/-- `re.search`: try the pattern at every position, first match wins. -/
def findDurationAux : List Char → Option (ℕ × ℕ × ℕ × ℕ × ℕ)
  | [] => none
  | c :: rest =>
    match matchDurationAt (c :: rest) with
    | some v => some v
    | none => findDurationAux rest

/-- The duration parse of lines 159-164 applied to the probe's stderr text. -/
def findDuration (s : String) : Option (ℕ × ℕ × ℕ × ℕ × ℕ) := findDurationAux s.toList

/-- Outcome of one subprocess invocation, as observed by `_run`. -/
structure ProcResult where
  exitCode : ℤ
  stdout : String
  stderr : String
deriving DecidableEq

/-- The detail text of the HTTPException raised by `_run` (line 98). -/
def runFail (cmdStr stderrText : String) : String :=
  "Command failed: " ++ cmdStr ++ " | " ++ pyStrip stderrText

/-- `_run` (lines 87-98): with `check=True`, a non-zero exit raises an
HTTPException carrying the joined command and the stripped stderr; success
returns the stripped stdout and stderr. -/
def _run (r : ProcResult) (cmdStr : String) : Except String (String × String) :=
  if r.exitCode = 0 then Except.ok (pyStrip r.stdout, pyStrip r.stderr)
  else Except.error (runFail cmdStr r.stderr)

/-- Lines 146-151: `total = float(info["duration"])` when the metadata value is
present and truthy (non-zero), else `0.0`. -/
def metaTotal : Option ℚ → ℚ
  | some d => if d = 0 then 0 else d
  | none => 0

/-- Line 165: seconds from the parsed groups, `h * 3600 + m * 60 + s`, where
`s` is `float` of the third group. -/
def hmsTotal (h m sInt frNum frLen : ℕ) : ℚ :=
  (h : ℚ) * 3600 + (m : ℚ) * 60 + ((sInt : ℚ) + (frNum : ℚ) / 10 ^ frLen)

/-- Duration resolution (lines 145-167): prefer the metadata value; if it is
non-positive, run the probe command and, when it exits zero, parse
`Duration: H:M:S.f` from its stripped stderr; a failing probe invocation
raises inside the `try` and is swallowed (`except: pass`), leaving `total`
unchanged. -/
def resolveTotal (meta : Option ℚ) (probe : ProcResult) (probeCmd : String) : ℚ :=
  let total := metaTotal meta
  if total ≤ 0 then
    match _run probe probeCmd with
    | Except.ok (_, err) =>
      match findDuration err with
      | some (h, m, sInt, frNum, frLen) => hmsTotal h m sInt frNum frLen
      | none => total
    | Except.error _ => total
  else total

/-- The request model `ClipRequest` (lines 23-30). The URL is irrelevant to
the verified pipeline and omitted; pydantic's boundary validation
(`1 ≤ count ≤ 20`, `start ≥ 0`) appears as hypotheses where needed. -/
structure ClipRequest where
  count : ℕ
  strategy : String
  start : Option ℚ

/-- The response model `ClipInfo` (lines 33-37). -/
structure ClipInfo where
  index : ℕ
  start : ℚ
  duration : ℚ
  url : String
deriving DecidableEq

/-- The classified errors `create_clips` can raise after a successful
download: HTTP 400 `Invalid video duration` and the HTTP 500 raised by `_run`
for a failed extraction. -/
inductive ApiError where
  | durationUnavailable : ApiError
  | extractionFailed : String → ApiError
deriving DecidableEq

/-- The oracle environment of one `create_clips` request: the working
directory, the yt-dlp metadata, the probe invocation's outcome, the seeded
random source's fraction stream, each extraction invocation's outcome, and
Python's decimal rendering of floats (`str`), which only affects command
strings. -/
structure PipelineEnv where
  ffmpegPath : String
  workdir : String
  metaDuration : Option ℚ
  probe : ProcResult
  fracs : List ℚ
  exec : ℕ → ProcResult
  showQ : ℚ → String

/-- Line 120: `video_path = os.path.join(workdir, "source.mp4")`. -/
def videoPath (env : PipelineEnv) : String := env.workdir ++ "/source.mp4"

/-- The format `f"{n:02d}"` used for clip file names. -/
def pad2 (n : ℕ) : String := if n < 10 then "0" ++ toString n else toString n

/-- Line 193: `out_path = os.path.join(workdir, f"clip_{i+1:02d}.mp4")`. -/
def outPath (env : PipelineEnv) (i : ℕ) : String :=
  env.workdir ++ "/clip_" ++ pad2 (i + 1) ++ ".mp4"

/-- `" ".join(cmd)` as used in `_run`'s error detail. -/
def joinSpace (xs : List String) : String := String.intercalate " " xs

/-- The extraction command of lines 195-205. -/
def clipCmd (env : PipelineEnv) (total : ℚ) (i : ℕ) (s : ℚ) : List String :=
  [env.ffmpegPath, "-y", "-ss", env.showQ s, "-t", env.showQ (reqDuration total s),
   "-i", videoPath env, "-c:v", "libx264", "-preset", "veryfast", "-c:a", "aac",
   outPath env i]

/-- The `ClipInfo` appended at line 208: reported duration is
`min(one_minute, total - s)` and the URL points into the public tree. -/
def mkClipInfo (env : PipelineEnv) (total : ℚ) (i : ℕ) (s : ℚ) : ClipInfo :=
  { index := i + 1, start := s, duration := min one_minute (total - s),
    url := "/clips/" ++ basename env.workdir ++ "/" ++ basename (outPath env i) }

/-- The extraction loop of lines 191-208, starting at clip index `i`. The
second component records which extraction invocations were performed: a raised
HTTPException from `_run` propagates, so clips after a failed one are never
attempted and the accumulated `results` list is discarded. -/
def extractLoop (env : PipelineEnv) (total : ℚ) :
    ℕ → List ℚ → Except String (List ClipInfo) × List ℕ
  | _, [] => (Except.ok [], [])
  | i, s :: rest =>
    match _run (env.exec i) (joinSpace (clipCmd env total i s)) with
    | Except.error e => (Except.error e, [i])
    | Except.ok _ =>
      match extractLoop env total (i + 1) rest with
      | (Except.ok cs, tr) => (Except.ok (mkClipInfo env total i s :: cs), i :: tr)
      | (Except.error e, tr) => (Except.error e, i :: tr)

/-- The pipeline of `create_clips` after a successful download (lines
145-210): resolve the duration, plan the start offsets, extract each clip.
The second component records which extraction invocations were performed.
(The best-effort `_ensure_public_link` call at line 188 is modelled
separately, as it touches only the public-link filesystem state.) -/
def create_clips (env : PipelineEnv) (payload : ClipRequest) :
    Except ApiError (List ClipInfo) × List ℕ :=
  let total := resolveTotal env.metaDuration env.probe
    (joinSpace [env.ffmpegPath, "-i", videoPath env])
  if total ≤ 0 then (Except.error ApiError.durationUnavailable, [])
  else
    let starts := planStarts payload.strategy total payload.count payload.start env.fracs
    match extractLoop env total 0 starts with
    | (Except.ok cs, tr) => (Except.ok cs, tr)
    | (Except.error e, tr) => (Except.error (ApiError.extractionFailed e), tr)

/-- `TMP_PARENT`: the temp root, `tempfile.gettempdir()` resolved to the
conventional path. -/
def tmpParent : String := "/tmp"

/-- `PUBLIC_ROOT = os.path.join(TMP_PARENT, "ytclips_public")` (line 51). -/
def publicRoot : String := tmpParent ++ "/ytclips_public"

/-- A successful materialization step of `_ensure_public_link`. -/
inductive FsAction where
  | symlink : FsAction
  | copytree : FsAction
deriving DecidableEq

/-- The filesystem state visible to `_ensure_public_link`: which public-link
paths exist, and whether the symlink and copy primitives are permitted by the
underlying filesystem. -/
structure FsState where
  entries : List String
  symlinkOk : Bool
  copyOk : Bool
deriving DecidableEq

/-- `os.path.exists` on the modelled state. -/
def fsExists (st : FsState) (p : String) : Bool := st.entries.contains p

/-- `_ensure_public_link` (lines 56-69): create the public link once per
workspace basename; a failed symlink falls back to a recursive copy, and all
exceptions are swallowed, so the function always returns the link path. The
returned list records the successful materialization actions. -/
def ensurePublicLink (st : FsState) (workdir : String) : FsState × String × List FsAction :=
  let base := basename workdir
  let link := publicRoot ++ "/" ++ base
  if fsExists st link then (st, link, [])
  else if st.symlinkOk then
    ({ st with entries := link :: st.entries }, link, [FsAction.symlink])
  else if fsExists st link then (st, link, [])
  else if st.copyOk then
    ({ st with entries := link :: st.entries }, link, [FsAction.copytree])
  else (st, link, [])

/-- The documented strategy literal for sequential planning. -/
def sequentialStrategy : String := "sequential"

/-- The strategy literal tested at line 178. -/
def randomStrategy : String := "random"

/-- An arbitrary strategy string that is neither documented literal. -/
def zigzagStrategy : String := "zigzag"

/-- The environment of the C3 witness: duration 150 from metadata, and every
extraction invocation exits 1 with diagnostic text `boom`. -/
def envFail : PipelineEnv :=
  { ffmpegPath := "ffmpeg", workdir := "/tmp/ytclip_w", metaDuration := some 150,
    probe := { exitCode := 0, stdout := "", stderr := "" }, fracs := [],
    exec := fun _ => { exitCode := 1, stdout := "", stderr := "boom" },
    showQ := fun _ => "x" }

/-- The request of the C3 witness. -/
def reqFail : ClipRequest := { count := 1, strategy := sequentialStrategy, start := none }

/-- A representative probe diagnostic containing `Duration: 00:02:03.50`. -/
def ffErr : String :=
  "Input 0, mov,mp4,m4a from source.mp4:\n  Duration: 00:02:03.50, start: 0.000000, bitrate: 128 kb per s"

/-- The probe outcome of the C4 witness. -/
def probeSample : ProcResult := { exitCode := 0, stdout := "", stderr := ffErr }

/-- The probe command string of the C4 witness. -/
def probeCmdSample : String := "ffmpeg -i source.mp4"

/-- The environment of the C8 witness: no metadata duration and a probe
invocation that exits 1 (its raised error is swallowed by `except: pass`). -/
def envNoDur : PipelineEnv :=
  { ffmpegPath := "ffmpeg", workdir := "/tmp/ytclip_n", metaDuration := none,
    probe := { exitCode := 1, stdout := "", stderr := "probe failed" }, fracs := [],
    exec := fun _ => { exitCode := 0, stdout := "", stderr := "" },
    showQ := fun _ => "x" }

/-- The request of the C8 witness. -/
def reqNoDur : ClipRequest := { count := 1, strategy := sequentialStrategy, start := none }

/-- The environment of Scenario A: duration 150 from metadata, every
extraction succeeding. -/
def envSeq : PipelineEnv :=
  { ffmpegPath := "ffmpeg", workdir := "/tmp/ytclip_a", metaDuration := some 150,
    probe := { exitCode := 0, stdout := "", stderr := "" }, fracs := [],
    exec := fun _ => { exitCode := 0, stdout := "", stderr := "" },
    showQ := fun _ => "x" }

/-- The request of Scenario A. -/
def reqSeq : ClipRequest := { count := 3, strategy := sequentialStrategy, start := some 0 }

theorem pyRoundInt_ge_floor (y : ℚ) : ⌊y⌋ ≤ pyRoundInt y := by
  unfold pyRoundInt
  split_ifs <;> omega

theorem pyRoundInt_le_floor_add_one (y : ℚ) : pyRoundInt y ≤ ⌊y⌋ + 1 := by
  unfold pyRoundInt
  split_ifs <;> omega

theorem pyRoundInt_nonneg {y : ℚ} (h : 0 ≤ y) : 0 ≤ pyRoundInt y :=
  le_trans (Int.floor_nonneg.mpr h) (pyRoundInt_ge_floor y)

theorem pyRoundInt_le_add_half (y : ℚ) : (pyRoundInt y : ℚ) ≤ y + 1/2 := by
  have h1 := Int.floor_le y
  have h2 := Int.lt_floor_add_one y
  unfold pyRoundInt
  split_ifs <;> push_cast <;> linarith

theorem pyRoundInt_mono {x y : ℚ} (h : x ≤ y) : pyRoundInt x ≤ pyRoundInt y := by
  have hf : ⌊x⌋ ≤ ⌊y⌋ := Int.floor_mono h
  rcases eq_or_lt_of_le hf with he | hl
  · have hxy : x - (⌊x⌋ : ℚ) ≤ y - (⌊x⌋ : ℚ) := by linarith
    unfold pyRoundInt
    rw [← he]
    split_ifs <;> first | omega | (exfalso; linarith)
  · calc pyRoundInt x ≤ ⌊x⌋ + 1 := pyRoundInt_le_floor_add_one x
      _ ≤ ⌊y⌋ := by omega
      _ ≤ pyRoundInt y := pyRoundInt_ge_floor y

theorem pyRoundInt_eq_of_lt_half {y : ℚ} {n : ℤ} (h1 : (n : ℚ) ≤ y)
    (h2 : y < (n : ℚ) + 1/2) : pyRoundInt y = n := by
  have hf : ⌊y⌋ = n := Int.floor_eq_iff.mpr ⟨h1, by linarith⟩
  unfold pyRoundInt
  rw [hf, if_pos (by linarith)]

theorem pyRoundInt_eq_of_gt_half {y : ℚ} {n : ℤ} (h1 : (n : ℚ) - 1/2 < y)
    (h2 : y ≤ (n : ℚ)) : pyRoundInt y = n := by
  rcases eq_or_lt_of_le h2 with he | hl
  · exact pyRoundInt_eq_of_lt_half (by linarith) (by linarith)
  · have hf : ⌊y⌋ = n - 1 := Int.floor_eq_iff.mpr ⟨by push_cast; linarith, by push_cast; linarith⟩
    unfold pyRoundInt
    rw [hf]
    have ha : ¬ (y - ((n - 1 : ℤ) : ℚ) < 1/2) := by push_cast; linarith
    have hb : 1/2 < y - ((n - 1 : ℤ) : ℚ) := by push_cast; linarith
    rw [if_neg ha, if_pos hb]
    omega

theorem round3_nonneg {x : ℚ} (h : 0 ≤ x) : 0 ≤ round3 x := by
  unfold round3
  have h0 : (0 : ℤ) ≤ pyRoundInt (x * 1000) := pyRoundInt_nonneg (by linarith)
  have h0q : (0 : ℚ) ≤ (pyRoundInt (x * 1000) : ℚ) := by exact_mod_cast h0
  linarith

theorem round3_le_add (x : ℚ) : round3 x ≤ x + 1/2000 := by
  unfold round3
  have h := pyRoundInt_le_add_half (x * 1000)
  rw [div_le_iff₀ (by norm_num : (0 : ℚ) < 1000)]
  linarith

theorem round3_mono {x y : ℚ} (h : x ≤ y) : round3 x ≤ round3 y := by
  unfold round3
  have hm := pyRoundInt_mono (by linarith : x * 1000 ≤ y * 1000)
  have hmq : (pyRoundInt (x * 1000) : ℚ) ≤ (pyRoundInt (y * 1000) : ℚ) := by exact_mod_cast hm
  linarith

theorem round3_eq_low {x : ℚ} {n : ℤ} (h1 : (n : ℚ) ≤ x * 1000)
    (h2 : x * 1000 < (n : ℚ) + 1/2) : round3 x = (n : ℚ) / 1000 := by
  unfold round3
  rw [pyRoundInt_eq_of_lt_half h1 h2]

theorem round3_eq_high {x : ℚ} {n : ℤ} (h1 : (n : ℚ) - 1/2 < x * 1000)
    (h2 : x * 1000 ≤ (n : ℚ)) : round3 x = (n : ℚ) / 1000 := by
  unfold round3
  rw [pyRoundInt_eq_of_gt_half h1 h2]

theorem planStarts_random_eq (total : ℚ) (count : ℕ) (s? : Option ℚ) (fracs : List ℚ) :
    planStarts randomStrategy total count s? fracs = planRandom total (fracs.take count) := by
  unfold planStarts randomStrategy
  rw [if_pos rfl]

/-- Claim C2 (confirmed): for every start offset `s` with `0 ≤ s ≤ total`, the
requested extraction duration `min(60, max(0.001, total − s))` is strictly
positive, at most 60, and satisfies `s + duration ≤ total + 0.001`. -/
theorem req_duration_bounds (total s : ℚ) (h0 : 0 ≤ s) (h1 : s ≤ total) :
    0 < reqDuration total s ∧ reqDuration total s ≤ 60 ∧
      s + reqDuration total s ≤ total + 1/1000 := by
  unfold reqDuration one_minute
  refine ⟨lt_min (by norm_num) (lt_of_lt_of_le (by norm_num) (le_max_left _ _)),
    min_le_left _ _, ?_⟩
  rcases le_total (total - s) (1/1000) with h | h
  · have hm : min (60 : ℚ) (max (1/1000) (total - s)) ≤ 1/1000 := by
      rw [max_eq_left h]
      exact min_le_right _ _
    linarith
  · have hm : min (60 : ℚ) (max (1/1000) (total - s)) ≤ total - s := by
      rw [max_eq_right h]
      exact min_le_right _ _
    linarith

/-- Witness for C2 at `total = 150`, `s = 100`. -/
theorem req_duration_bounds_witness :
    (0 : ℚ) ≤ 100 ∧ (100 : ℚ) ≤ 150 ∧
      (0 < reqDuration 150 100 ∧ reqDuration 150 100 ≤ 60 ∧
        100 + reqDuration 150 100 ≤ 150 + 1/1000) :=
  ⟨by norm_num, by norm_num, req_duration_bounds 150 100 (by norm_num) (by norm_num)⟩

/-- Claim C9 (confirmed): every strategy string other than `random` takes the
sequential branch, so an unrecognized strategy plans exactly as `sequential`
does; no error arises from the strategy value. -/
theorem unknown_strategy_behaves_sequential (strat : String) (h : strat ≠ randomStrategy)
    (total : ℚ) (count : ℕ) (start? : Option ℚ) (fracs : List ℚ) :
    planStarts strat total count start? fracs =
      planStarts sequentialStrategy total count start? fracs := by
  unfold planStarts
  rw [if_neg (by simpa [randomStrategy] using h), if_neg (by decide)]

/-- Witness for C9 at the unrecognized strategy string `zigzag`. -/
theorem unknown_strategy_behaves_sequential_witness :
    zigzagStrategy ≠ randomStrategy ∧
      planStarts zigzagStrategy 150 3 (some 0) [] =
        planStarts sequentialStrategy 150 3 (some 0) [] :=
  ⟨by decide, unknown_strategy_behaves_sequential zigzagStrategy (by decide) 150 3 (some 0) []⟩

/-- Claim C10 (confirmed): under the `random` strategy the manual start field
is never read, so two requests identical except for `start` produce the same
planned offsets, the same `ClipResult` list, and the same extraction trace,
given the same oracle environment (same random source state). -/
theorem random_plan_ignores_manual_start (env : PipelineEnv) (count : ℕ) (s1 s2 : Option ℚ) :
    create_clips env ⟨count, randomStrategy, s1⟩ = create_clips env ⟨count, randomStrategy, s2⟩ := by
  simp [create_clips, planStarts, randomStrategy]

/-- Claim C7 (confirmed): `_ensure_public_link` is idempotent. A second call
for the same workspace returns the same path, leaves the state unchanged, and
performs no further link or copy action (the source swallows all filesystem
exceptions, so no error is raised either). -/
theorem publish_idempotent (st : FsState) (w : String) :
    ensurePublicLink (ensurePublicLink st w).1 w =
      ((ensurePublicLink st w).1, (ensurePublicLink st w).2.1, []) := by
  by_cases h1 : (publicRoot ++ "/" ++ basename w) ∈ st.entries
  · simp [ensurePublicLink, fsExists, h1]
  · by_cases h2 : st.symlinkOk = true
    · simp [ensurePublicLink, fsExists, h1, h2]
    · by_cases h3 : st.copyOk = true
      · simp [ensurePublicLink, fsExists, h1, h2, h3]
      · simp [ensurePublicLink, fsExists, h1, h2, h3]

/-- Claim C1 as stated is false at a concrete input inside its preconditions:
with `total = 60.0009`, `count = 1`, manual start `1`, the planned offset is
`round(0.0009, 3) = 0.001`, which exceeds `max(0, total − 60) = 0.0009`:
rounding to 3 decimals happens after clamping and can overshoot the bound. -/
theorem seq_plan_offset_exceeds_max_start :
    (0 < (60 + 9/10000 : ℚ) ∧ (0 : ℚ) ≤ 1) ∧
      planSequential (60 + 9/10000) 1 (some 1) = [1/1000] ∧
      ¬ (∀ x ∈ planSequential (60 + 9/10000) 1 (some 1), x ≤ max 0 ((60 + 9/10000) - 60)) := by
  have hplan : planSequential (60 + 9/10000) 1 (some 1) = [1/1000] := by
    unfold planSequential
    simp only [List.range_succ, List.range_zero, List.map_append, List.map_cons, List.map_nil,
      List.nil_append, Option.getD_some]
    norm_num [one_minute]
    rw [round3_eq_high (n := 1) (by norm_num) (by norm_num)]
    norm_num
  refine ⟨⟨by norm_num, by norm_num⟩, hplan, fun h => ?_⟩
  have h1 := h (1/1000) (by rw [hplan]; exact List.mem_singleton_self _)
  rw [show max (0 : ℚ) ((60 + 9/10000) - 60) = 9/10000 by norm_num] at h1
  norm_num at h1

/-- Claim C1 (amended): for `total > 0`, `count ∈ [1, 20]`, and a non-negative
optional manual start, sequential planning returns exactly `count` offsets,
non-decreasing, each within `[0, max(0, total − 60) + 0.0005]` — the upper end
of the claim's interval widened by the half-millisecond rounding overshoot. -/
theorem seq_plan_length_sorted_bounds (total : ℚ) (count : ℕ) (start? : Option ℚ)
    (htotal : 0 < total) (hc1 : 1 ≤ count) (hc2 : count ≤ 20)
    (hstart : ∀ s, start? = some s → 0 ≤ s) :
    (planSequential total count start?).length = count ∧
    (planSequential total count start?).Pairwise (· ≤ ·) ∧
    ∀ x ∈ planSequential total count start?, 0 ≤ x ∧ x ≤ max 0 (total - 60) + 1/2000 := by
  have hst : 0 ≤ start?.getD 0 := by
    cases start? with
    | none => exact le_rfl
    | some s => exact hstart s rfl
  unfold planSequential one_minute
  refine ⟨by rw [List.length_map, List.length_range], ?_, ?_⟩
  · rw [List.pairwise_map]
    refine (List.pairwise_lt_range count).imp ?_
    intro a b hab
    refine round3_mono (min_le_min ?_ le_rfl)
    have hab' : (a : ℚ) ≤ (b : ℚ) := by exact_mod_cast hab.le
    linarith
  · intro x hx
    simp only [List.mem_map, List.mem_range] at hx
    obtain ⟨i, hi, rfl⟩ := hx
    have hpre0 : 0 ≤ min (start?.getD 0 + (i : ℚ) * 60) (max 0 (total - 60)) :=
      le_min (add_nonneg hst (mul_nonneg (Nat.cast_nonneg i) (by norm_num))) (le_max_left _ _)
    have hpre1 : min (start?.getD 0 + (i : ℚ) * 60) (max 0 (total - 60)) ≤
        max 0 (total - 60) := min_le_right _ _
    refine ⟨round3_nonneg hpre0, ?_⟩
    have hr := round3_le_add (min (start?.getD 0 + (i : ℚ) * 60) (max 0 (total - 60)))
    linarith

/-- Witness for the amended C1 at `total = 150`, `count = 3`, start `0`. -/
theorem seq_plan_length_sorted_bounds_witness :
    (0 : ℚ) < 150 ∧ (1 : ℕ) ≤ 3 ∧ (3 : ℕ) ≤ 20 ∧
      ((planSequential 150 3 (some 0)).length = 3 ∧
       (planSequential 150 3 (some 0)).Pairwise (· ≤ ·) ∧
       ∀ x ∈ planSequential 150 3 (some 0), 0 ≤ x ∧ x ≤ max 0 (150 - 60) + 1/2000) :=
  ⟨by norm_num, by norm_num, by norm_num,
    seq_plan_length_sorted_bounds 150 3 (some 0) (by norm_num) (by norm_num) (by norm_num)
      (fun s hs => by injection hs with h; subst h; exact le_rfl)⟩

/-- Scenario C's planned offsets: a seeded source yielding fractions 0.2 and
0.8 of `max_start = 240` gives `[48.0, 192.0]` for `total = 300`. -/
theorem plan_rand_300 : planRandom 300 [2/10, 8/10] = [48, 192] := by
  unfold planRandom pyUniform
  simp only [List.map_cons, List.map_nil]
  norm_num [one_minute]
  constructor
  · rw [round3_eq_low (n := 48000) (by norm_num) (by norm_num)]
    norm_num
  · rw [round3_eq_low (n := 192000) (by norm_num) (by norm_num)]
    norm_num

/-- Claim C5 as stated is false at a concrete input: with `total = 60.0009`
and a random fraction `0.9999 ∈ [0, 1]`, the drawn offset
`round(0.0009 * 0.9999, 3) = 0.001` exceeds `max(0, total − 60) = 0.0009`:
rounding to 3 decimals can overshoot the draw interval. -/
theorem rand_plan_offset_exceeds_max_start :
    (0 ≤ (9999 : ℚ)/10000 ∧ (9999 : ℚ)/10000 ≤ 1) ∧
      ¬ (∀ x ∈ planStarts randomStrategy (60 + 9/10000) 1 (some 0) [9999/10000],
          x ≤ max 0 ((60 + 9/10000) - 60)) := by
  have hplan : planStarts randomStrategy (60 + 9/10000) 1 (some 0) [9999/10000] = [1/1000] := by
    rw [planStarts_random_eq]
    unfold planRandom pyUniform
    simp only [List.take_cons, List.take_nil, List.map_cons, List.map_nil]
    norm_num [one_minute]
    rw [round3_eq_high (n := 1) (by norm_num) (by norm_num)]
    norm_num
  refine ⟨⟨by norm_num, by norm_num⟩, fun h => ?_⟩
  have h1 := h (1/1000) (by rw [hplan]; exact List.mem_singleton_self _)
  rw [show max (0 : ℚ) ((60 + 9/10000) - 60) = 9/10000 by norm_num] at h1
  norm_num at h1

/-- Claim C5 (amended): a random-strategy plan consumes `count` fractions from
the seeded source, and every returned offset lies within
`[0, max(0, total − 60) + 0.0005]` — the claim's interval widened by the
half-millisecond rounding overshoot; the plan is a pure function of the
source's fractions, and fractions 0.2 and 0.8 at `total = 300` reproduce the
documented plan `[48.0, 192.0]`. -/
theorem rand_plan_bounds_reproducible (total : ℚ) (count : ℕ) (s? : Option ℚ) (fracs : List ℚ)
    (htotal : 0 < total) (hlen : count ≤ fracs.length)
    (hf : ∀ f ∈ fracs, 0 ≤ f ∧ f ≤ 1) :
    (planStarts randomStrategy total count s? fracs).length = count ∧
    (∀ x ∈ planStarts randomStrategy total count s? fracs,
      0 ≤ x ∧ x ≤ max 0 (total - 60) + 1/2000) ∧
    planStarts randomStrategy 300 2 none [2/10, 8/10] = [48, 192] := by
  rw [planStarts_random_eq, planStarts_random_eq]
  refine ⟨?_, ?_, ?_⟩
  · simp [planRandom, List.length_take, Nat.min_eq_left hlen]
  · intro x hx
    unfold planRandom one_minute at hx
    simp only [List.mem_map] at hx
    obtain ⟨f, hfmem, rfl⟩ := hx
    obtain ⟨hf0, hf1⟩ := hf f (List.take_subset count fracs hfmem)
    have hmax0 : (0 : ℚ) ≤ max 0 (total - 60) := le_max_left _ _
    have hu : pyUniform 0 (max 0 (total - 60)) f = max 0 (total - 60) * f := by
      unfold pyUniform; ring
    constructor
    · apply round3_nonneg
      rw [hu]
      exact mul_nonneg hmax0 hf0
    · have hle : pyUniform 0 (max 0 (total - 60)) f ≤ max 0 (total - 60) := by
        rw [hu]
        exact mul_le_of_le_one_right hmax0 hf1
      have hr := round3_le_add (pyUniform 0 (max 0 (total - 60)) f)
      linarith
  · rw [show List.take 2 [(2 : ℚ)/10, 8/10] = [2/10, 8/10] from rfl]
    exact plan_rand_300

/-- Witness for the amended C5 at `total = 300`, `count = 2`,
fractions `[0.2, 0.8]`. -/
theorem rand_plan_bounds_reproducible_witness :
    (0 : ℚ) < 300 ∧ (2 : ℕ) ≤ 2 ∧
      ((planStarts randomStrategy 300 2 none [2/10, 8/10]).length = 2 ∧
       (∀ x ∈ planStarts randomStrategy 300 2 none [2/10, 8/10],
         0 ≤ x ∧ x ≤ max 0 (300 - 60) + 1/2000) ∧
       planStarts randomStrategy 300 2 none [2/10, 8/10] = [48, 192]) :=
  ⟨by norm_num, le_rfl,
    rand_plan_bounds_reproducible 300 2 none [2/10, 8/10] (by norm_num) (by norm_num)
      (by intro f hf; rcases List.mem_cons.mp hf with h | h
          · subst h; constructor <;> norm_num
          · rcases List.mem_cons.mp h with h2 | h2
            · subst h2; constructor <;> norm_num
            · simp at h2)⟩

theorem extractLoop_first_fail (env : PipelineEnv) (total : ℚ) :
    ∀ (pre : List ℚ) (s0 : ℚ) (post : List ℚ) (k : ℕ),
      (env.exec (k + pre.length)).exitCode ≠ 0 →
      (∀ j, j < pre.length → (env.exec (k + j)).exitCode = 0) →
      extractLoop env total k (pre ++ s0 :: post) =
        (Except.error (runFail (joinSpace (clipCmd env total (k + pre.length) s0))
          ((env.exec (k + pre.length)).stderr)),
         List.range' k (pre.length + 1)) := by
  intro pre
  induction pre with
  | nil =>
    intro s0 post k hfail _
    simp only [List.nil_append, List.length_nil, Nat.add_zero] at hfail ⊢
    unfold extractLoop _run
    rw [if_neg hfail]
    rfl
  | cons p pre' ih =>
    intro s0 post k hfail hprev
    have h0 : (env.exec k).exitCode = 0 := by
      have hp := hprev 0 (by simp)
      simpa using hp
    have hfail' : (env.exec ((k + 1) + pre'.length)).exitCode ≠ 0 := by
      have hh : (k + 1) + pre'.length = k + (p :: pre').length := by
        simp [List.length_cons]
        omega
      rw [hh]
      exact hfail
    have hprev' : ∀ j, j < pre'.length → (env.exec ((k + 1) + j)).exitCode = 0 := by
      intro j hj
      have hh : (k + 1) + j = k + (j + 1) := by omega
      rw [hh]
      exact hprev (j + 1) (by simpa [List.length_cons] using Nat.succ_lt_succ hj)
    have hrec := ih s0 post (k + 1) hfail' hprev'
    simp only [List.cons_append]
    unfold extractLoop
    rw [show _run (env.exec k) (joinSpace (clipCmd env total k p)) =
        Except.ok (pyStrip (env.exec k).stdout, pyStrip (env.exec k).stderr) from by
      unfold _run
      rw [if_pos h0]]
    rw [hrec]
    have harith : (k + 1) + pre'.length = k + (pre'.length + 1) := by omega
    simp only [List.length_cons, harith, List.range'_succ]

/-- Claim C3 (confirmed): if the extraction invocation after `pre.length`
successful ones exits non-zero, `create_clips` returns the HTTP 500 error
whose detail carries the failed command and that invocation's stripped
stderr; the performed invocations are exactly `0 .. pre.length` (the later
planned extractions never run) and no `ClipInfo` list is returned. -/
theorem extraction_failure_aborts_request (env : PipelineEnv) (payload : ClipRequest)
    (total : ℚ) (pre : List ℚ) (s0 : ℚ) (post : List ℚ)
    (htot : resolveTotal env.metaDuration env.probe
      (joinSpace [env.ffmpegPath, "-i", videoPath env]) = total)
    (hpos : ¬ total ≤ 0)
    (hstarts : planStarts payload.strategy total payload.count payload.start env.fracs
      = pre ++ s0 :: post)
    (hfail : (env.exec pre.length).exitCode ≠ 0)
    (hprev : ∀ j, j < pre.length → (env.exec j).exitCode = 0) :
    create_clips env payload =
      (Except.error (ApiError.extractionFailed (runFail
        (joinSpace (clipCmd env total pre.length s0)) ((env.exec pre.length).stderr))),
       List.range (pre.length + 1)) := by
  unfold create_clips
  rw [htot, if_neg hpos, hstarts]
  dsimp only
  rw [extractLoop_first_fail env total pre s0 post 0 (by simpa using hfail)
    (by simpa using hprev)]
  simp only [Nat.zero_add, List.range_eq_range']

theorem plan_seq_150_1 : planStarts sequentialStrategy 150 1 none [] = [0] := by
  unfold planStarts sequentialStrategy
  rw [if_neg (by decide)]
  unfold planSequential one_minute
  simp only [List.range_succ, List.range_zero, List.map_append, List.map_cons, List.map_nil,
    List.nil_append, Option.getD_none]
  norm_num
  rw [round3_eq_low (n := 0) (by norm_num) (by norm_num)]
  norm_num

/-- Witness for C3: the first extraction fails, the request returns the
classified error carrying `boom`, and only invocation 0 was performed. -/
theorem extraction_failure_aborts_request_witness :
    create_clips envFail reqFail =
      (Except.error (ApiError.extractionFailed (runFail
        (joinSpace (clipCmd envFail 150 0 0)) "boom")),
       List.range 1) := by
  have htot : resolveTotal envFail.metaDuration envFail.probe
      (joinSpace [envFail.ffmpegPath, "-i", videoPath envFail]) = 150 := by
    norm_num [resolveTotal, metaTotal, envFail]
  have h := extraction_failure_aborts_request envFail reqFail 150 [] 0 [] htot
    (by norm_num) plan_seq_150_1 (by norm_num [envFail]) (fun j hj => absurd hj (by simp))
  simpa [envFail] using h

/-- Claim C4 (confirmed): when the metadata path yields no positive duration
and the probe invocation returns with diagnostic output whose parse succeeds,
the resolver returns `h * 3600 + m * 60 + s` seconds. -/
theorem duration_probe_fallback_parses (meta : Option ℚ) (probe : ProcResult) (probeCmd : String)
    (h m sInt frNum frLen : ℕ)
    (hmeta : metaTotal meta ≤ 0) (hexit : probe.exitCode = 0)
    (hparse : findDuration (pyStrip probe.stderr) = some (h, m, sInt, frNum, frLen)) :
    resolveTotal meta probe probeCmd = hmsTotal h m sInt frNum frLen := by
  unfold resolveTotal
  rw [if_pos hmeta]
  rw [show _run probe probeCmd = Except.ok (pyStrip probe.stdout, pyStrip probe.stderr) from by
    unfold _run
    rw [if_pos hexit]]
  dsimp only
  rw [hparse]

/-- Witness for C4: metadata absent and diagnostic text containing
`Duration: 00:02:03.50` resolve the total duration to 123.5 seconds. -/
theorem duration_probe_fallback_parses_witness :
    metaTotal none ≤ 0 ∧ probeSample.exitCode = 0 ∧
      resolveTotal none probeSample probeCmdSample = 123.5 := by
  refine ⟨by norm_num [metaTotal], rfl, ?_⟩
  have hp : findDuration (pyStrip probeSample.stderr) = some (0, 2, 3, 50, 2) := by decide
  have hres := duration_probe_fallback_parses none probeSample probeCmdSample 0 2 3 50 2
    (by norm_num [metaTotal]) rfl hp
  rw [hres]
  norm_num [hmsTotal]

/-- Claim C8 (confirmed): when the metadata value is absent or non-positive
and the probe path also fails (non-zero exit, or its output parses to a
non-positive value, or does not parse), `create_clips` raises the HTTP 400
duration error and performs no extraction invocation (and plans no clip). -/
theorem duration_unavailable_no_extraction (env : PipelineEnv) (payload : ClipRequest)
    (hmeta : metaTotal env.metaDuration ≤ 0)
    (hprobe : env.probe.exitCode = 0 →
      ∀ h m sInt frNum frLen,
        findDuration (pyStrip env.probe.stderr) = some (h, m, sInt, frNum, frLen) →
        hmsTotal h m sInt frNum frLen ≤ 0) :
    create_clips env payload = (Except.error ApiError.durationUnavailable, []) := by
  have htot : resolveTotal env.metaDuration env.probe
      (joinSpace [env.ffmpegPath, "-i", videoPath env]) ≤ 0 := by
    unfold resolveTotal
    rw [if_pos hmeta]
    by_cases hexit : env.probe.exitCode = 0
    · rw [show _run env.probe (joinSpace [env.ffmpegPath, "-i", videoPath env]) =
          Except.ok (pyStrip env.probe.stdout, pyStrip env.probe.stderr) from by
        unfold _run
        rw [if_pos hexit]]
      dsimp only
      cases hfd : findDuration (pyStrip env.probe.stderr) with
      | none => exact hmeta
      | some v =>
        obtain ⟨h, m, sInt, frNum, frLen⟩ := v
        exact hprobe hexit h m sInt frNum frLen hfd
    · rw [show _run env.probe (joinSpace [env.ffmpegPath, "-i", videoPath env]) =
          Except.error (runFail (joinSpace [env.ffmpegPath, "-i", videoPath env])
            env.probe.stderr) from by
        unfold _run
        rw [if_neg hexit]]
      exact hmeta
  unfold create_clips
  rw [if_pos htot]

/-- Witness for C8: both resolution paths fail, the request returns the
duration error, and the extraction trace is empty. -/
theorem duration_unavailable_no_extraction_witness :
    create_clips envNoDur reqNoDur = (Except.error ApiError.durationUnavailable, []) :=
  duration_unavailable_no_extraction envNoDur reqNoDur (by norm_num [metaTotal, envNoDur])
    (fun hexit => absurd hexit (by norm_num [envNoDur]))

theorem plan_seq_150_3 : planStarts sequentialStrategy 150 3 (some 0) [] = [0, 60, 90] := by
  unfold planStarts sequentialStrategy
  rw [if_neg (by decide)]
  unfold planSequential one_minute
  simp only [List.range_succ, List.range_zero, List.map_append, List.map_cons, List.map_nil,
    List.nil_append, List.cons_append, Option.getD_some]
  norm_num
  refine ⟨?_, ?_, ?_⟩
  · rw [round3_eq_low (n := 0) (by norm_num) (by norm_num)]
    norm_num
  · rw [round3_eq_low (n := 60000) (by norm_num) (by norm_num)]
    norm_num
  · rw [round3_eq_low (n := 90000) (by norm_num) (by norm_num)]
    norm_num

theorem extract_seq_ok : extractLoop envSeq 150 0 [0, 60, 90] =
    (Except.ok [mkClipInfo envSeq 150 0 0, mkClipInfo envSeq 150 1 60, mkClipInfo envSeq 150 2 90],
     [0, 1, 2]) := by
  simp [extractLoop, _run, envSeq]

/-- Claim C6 (confirmed): for `total = 150`, `count = 3`, sequential strategy,
manual start 0, the pipeline returns clips whose offsets are exactly
`[0, 60, 90]` (the third clamped to `max_start = 90`) and whose reported
durations are exactly `[60, 60, 60]`. -/
theorem scenario_sequential_150_3 :
    Option.map (List.map ClipInfo.start) (create_clips envSeq reqSeq).1.toOption =
      some [0, 60, 90] ∧
    Option.map (List.map ClipInfo.duration) (create_clips envSeq reqSeq).1.toOption =
      some [60, 60, 60] := by
  have htot : resolveTotal envSeq.metaDuration envSeq.probe
      (joinSpace [envSeq.ffmpegPath, "-i", videoPath envSeq]) = 150 := by
    norm_num [resolveTotal, metaTotal, envSeq]
  have hplan : planStarts reqSeq.strategy 150 reqSeq.count reqSeq.start envSeq.fracs
      = [0, 60, 90] := plan_seq_150_3
  have hcc : create_clips envSeq reqSeq =
      (Except.ok [mkClipInfo envSeq 150 0 0, mkClipInfo envSeq 150 1 60,
        mkClipInfo envSeq 150 2 90], [0, 1, 2]) := by
    unfold create_clips
    rw [htot, if_neg (by norm_num), hplan]
    dsimp only
    rw [extract_seq_ok]
  rw [hcc]
  constructor
  · simp [mkClipInfo, Except.toOption]
  · simp [mkClipInfo, Except.toOption, one_minute]
    norm_num
